import Mathlib

/-
  Verification of the FastAPI tutorial application (src/main.py) against its
  natural-language specification.

  The Python source is shallowly embedded: each route handler becomes a Lean
  function on already-parsed values; framework-side parsing and validation
  (path-parameter enum matching, pydantic model validation, boolean query
  coercion) is embedded as explicit functions from raw inputs to
  `Option`/`Except` results.  Python runtime exceptions raised inside handler
  bodies (AttributeError, KeyError, TypeError) are embedded as `Except` errors.
  Python `float` values are modelled as rationals, `datetime`/`timedelta` as
  integer timestamps/offsets.
-/

namespace FastApiTutorial

/-- Python runtime exceptions that handler bodies in src/main.py can raise. -/
inductive PyError where
  | attributeError
  | keyError
  | typeError
  deriving DecidableEq, Repr

/-! ## ModelEnum and GET /models/{model_name} (src/main.py lines 10-13, 361-369) -/

/-- `class ModelEnum(str, Enum)` with members alexnet, resnet, lenet. -/
inductive ModelEnum where
  | alexnet
  | resnet
  | lenet
  deriving DecidableEq, Repr

/-- The string value of each enum member. -/
def ModelEnum.value : ModelEnum → String
  | .alexnet => "alexnet"
  | .resnet => "resnet"
  | .lenet => "lenet"

/-- Framework-side coercion of the raw path segment into `ModelEnum`:
a path value outside the closed set is rejected (client validation error,
embedded as `none`) before the handler runs. -/
def ModelEnum.ofString (s : String) : Option ModelEnum :=
  if s = "alexnet" then some .alexnet
  else if s = "resnet" then some .resnet
  else if s = "lenet" then some .lenet
  else none

/-- Handler `get_model` (src/main.py lines 362-369); the returned dict
`{'model_name': ..., 'Message': ...}` is embedded as a pair
(model_name.value, Message). -/
def get_model (model_name : ModelEnum) : String × String :=
  if model_name = ModelEnum.alexnet then
    (model_name.value, "Deep Learning FTW!")
  else if model_name.value = "lenet" then
    (model_name.value, "LeCNN all the images")
  else
    (model_name.value, "Have some residuals")

/-- The full route `GET /models/{model_name}`: path-segment coercion, then the
handler; `none` is a client validation error issued before handler logic. -/
def route_models (seg : String) : Option (String × String) :=
  (ModelEnum.ofString seg).map get_model

/-! ## fake_item_db and GET /items/ (src/main.py lines 302, 308-310) -/

/-- `fake_item_db`: the fixed three-element list of `{'item_name': ...}`
records, each embedded as a (key, value) pair. -/
def fake_item_db : List (String × String) :=
  [("item_name", "Item_01"), ("item_name", "Item_02"), ("item_name", "Item_03")]

/-- Clamp a Python slice index to a list of length `n`: negative indices count
from the end and clamp to 0, nonnegative indices clamp to `n`. -/
def pySliceIndex (n : Nat) (i : Int) : Nat :=
  if i < 0 then (max (i + n) 0).toNat else min i.toNat n

/-- Python list slicing `l[a : b]`. -/
def pySlice (l : List α) (a b : Int) : List α :=
  (l.take (pySliceIndex l.length b)).drop (pySliceIndex l.length a)

/-- Handler `read_item` (src/main.py lines 309-310):
`return fake_item_db[skip : skip + limit]`. -/
def read_item (skip limit : Int) : List (String × String) :=
  pySlice fake_item_db skip (skip + limit)

/-- The route `GET /items/` with query parameters `skip` (default 0) and
`limit` (default 10); `none` means the query parameter was omitted. -/
def route_items (skip limit : Option Int) : List (String × String) :=
  read_item (skip.getD 0) (limit.getD 10)

/-! ## The Item data model and its validation (src/main.py lines 20-49) -/

/-- `class Image(BaseModel)` (src/main.py lines 20-22): url is an `HttpUrl`,
name a plain string. -/
structure Image where
  url : String
  name : String
  deriving DecidableEq, Repr

/-- Pydantic's `HttpUrl` constraint on `Image.url`, embedded as a scheme
check: the raw string must carry an http or https scheme. -/
def isHttpUrl (s : String) : Bool :=
  "http://".data.isPrefixOf s.data || "https://".data.isPrefixOf s.data

/-- `class Item(BaseModel)` (src/main.py lines 29-37): name and price are
required; description defaults to None, tax to 10.5, tagL to [], tagS to the
empty set, image to None.  Floats are embedded as rationals, `Set[str]` as
`Finset String`. -/
structure Item where
  name : String
  description : Option String
  price : ℚ
  tax : ℚ
  tagL : List String
  tagS : Finset String
  image : Option Image
  deriving DecidableEq

/-- A raw JSON body for `Image`: each declared field either present (already
coerced to its declared type) or absent. -/
structure ImageInput where
  url : Option String
  name : Option String
  deriving DecidableEq, Repr

/-- A raw JSON body for `Item`: each declared field either present (already
coerced to its declared type) or absent. -/
structure ItemInput where
  name : Option String
  description : Option String
  price : Option ℚ
  tax : Option ℚ
  tagL : Option (List String)
  tagS : Option (Finset String)
  image : Option ImageInput
  deriving DecidableEq

/-- Pydantic validation of an `Image` body: both fields are required and url
must satisfy the `HttpUrl` constraint; a failure names the offending fields. -/
def validate_image (i : ImageInput) : Except (List String) Image :=
  match i.url, i.name with
  | some u, some n =>
      if isHttpUrl u then .ok { url := u, name := n } else .error ["url"]
  | _, _ =>
      .error ((if i.url.isNone then ["url"] else []) ++
              (if i.name.isNone then ["name"] else []))

/-- Pydantic validation of an `Item` body (src/main.py lines 29-37): the
required fields name and price must be present or the request is rejected with
an error naming the missing fields; optional fields take their declared
defaults (description None, tax 10.5, tagL [], tagS set(), image None); a
present image is validated as a nested `Image`. -/
def validate_item (i : ItemInput) : Except (List String) Item :=
  match i.name, i.price with
  | some n, some p =>
      match i.image with
      | none =>
          .ok { name := n, description := i.description, price := p,
                tax := i.tax.getD (10.5 : ℚ), tagL := i.tagL.getD [],
                tagS := i.tagS.getD ∅, image := none }
      | some im =>
          match validate_image im with
          | .ok img =>
              .ok { name := n, description := i.description, price := p,
                    tax := i.tax.getD (10.5 : ℚ), tagL := i.tagL.getD [],
                    tagS := i.tagS.getD ∅, image := some img }
          | .error e => .error (e.map (fun f => "image." ++ f))
  | _, _ =>
      .error ((if i.name.isNone then ["name"] else []) ++
              (if i.price.isNone then ["price"] else []))

/-- Re-serialization of a validated `Item` as a raw body: every field present,
carrying the validated value (used to state idempotence of validation). -/
def Item.toInput (it : Item) : ItemInput :=
  { name := some it.name, description := it.description,
    price := some it.price, tax := some it.tax, tagL := some it.tagL,
    tagS := some it.tagS, image := it.image.map (fun img =>
      { url := some img.url, name := some img.name }) }

/-! ## POST /items/ (src/main.py lines 280-286) -/

/-- Handler `create_item` (src/main.py lines 281-286): the response dict is
`item.dict()` plus, when `item.tax` is truthy (nonzero), the extra key
`'price with tax'` = price + tax; embedded as the item paired with the
optional extra field. -/
def create_item (item : Item) : Item × Option ℚ :=
  (item, if item.tax ≠ 0 then some (item.price + item.tax) else none)

/-- The route `POST /items/`: body validation, then the handler. -/
def route_create_item (body : ItemInput) : Except (List String) (Item × Option ℚ) :=
  (validate_item body).map create_item

/-! ## GET /users/me and GET /users/{user_id} (src/main.py lines 352-357) -/

/-- Handler `read_user_me` (src/main.py lines 353-354): the fixed literal
`{'user_id': 'Me!'}`, embedded as a (key, value) pair. -/
def read_user_me : String × String := ("user_id", "Me!")

/-- Handler `read_user` (src/main.py lines 356-357): echoes the path
parameter as `{'user_id': user_id}`. -/
def read_user (user_id : String) : String × String := ("user_id", user_id)

/-- Route dispatch for the path `/users/{seg}`: the literal route
`/users/me` is declared before the parameterized `/users/{user_id}` route, so
the framework matches it first. -/
def route_users (seg : String) : String × String :=
  if seg = "me" then read_user_me else read_user seg

/-! ## Boolean query coercion and GET /read_item_opt/{item_id}
(src/main.py lines 318-327) -/

/-- ASCII lowercasing of one character (the effect of Python's
`str.lower()` on the boolean literals at stake). -/
def lowerChar (c : Char) : Char :=
  if 65 ≤ c.toNat ∧ c.toNat ≤ 90 then Char.ofNat (c.toNat + 32) else c

/-- ASCII lowercasing of a string. -/
def toLowerAscii (s : String) : String :=
  ⟨s.data.map lowerChar⟩

/-- Modelled from the spec: the boolean query-string coercion applied by the
framework to the `short: bool` parameter of `read_item_opt` is framework code
absent from src/; per the spec, "boolean coercion must accept the literal set
of true, false, 1, 0, yes, no, on, off case-insensitively" (matching the
source comment at src/main.py lines 315-317). -/
def parseBool (s : String) : Option Bool :=
  if toLowerAscii s = "true" ∨ toLowerAscii s = "1" ∨
      toLowerAscii s = "yes" ∨ toLowerAscii s = "on" then some true
  else if toLowerAscii s = "false" ∨ toLowerAscii s = "0" ∨
      toLowerAscii s = "no" ∨ toLowerAscii s = "off" then some false
  else none

/-- Handler `read_item_opt` (src/main.py lines 319-327): builds the dict
`{'item_id': ...}`, adds `'q'` when `q` is truthy (a present, non-empty
string), and adds the long `'Description'` when `short` is false; the dict is
embedded as a list of (key, value) pairs in insertion order. -/
def read_item_opt (item_id : String) (q : Option String) (short : Bool) :
    List (String × String) :=
  let item := [("item_id", item_id)]
  let item := match q with
    | some s => if s ≠ "" then item ++ [("q", s)] else item
    | none => item
  if !short then
    item ++
      [("Description", "This is an amazing item that has a long description")]
  else item

/-- The route `GET /read_item_opt/{item_id}`: the raw `short` query value
(default false when omitted) is coerced by `parseBool`; an unrecognized
literal is a client validation error (`none`). -/
def route_read_item_opt (item_id : String) (q : Option String)
    (shortRaw : Option String) : Option (List (String × String)) :=
  match shortRaw with
  | none => some (read_item_opt item_id q false)
  | some s => (parseBool s).map (read_item_opt item_id q)

/-! ## GET /read_items_with_valid (src/main.py lines 239-244) -/

/-- The declared constraints on the query parameter `q` of
`read_items_with_valid`: min_length=3, max_length=50, regex="^fixedquery$". -/
def q_constraints (s : String) : Prop :=
  3 ≤ s.length ∧ s.length ≤ 50 ∧ s = "fixedquery"

instance (s : String) : Decidable (q_constraints s) := by
  unfold q_constraints
  infer_instance

/-- Handler `read_items_with_valid` (src/main.py lines 240-244): `results` is
a *list*; when `q` is truthy the body calls `results.update(...)`, which
raises AttributeError because lists have no `update` method. -/
def read_items_with_valid (q : Option String) :
    Except PyError (List (String × String)) :=
  let results := [("item_id", "Item01"), ("item_id", "Item02")]
  match q with
  | some s => if s ≠ "" then .error .attributeError else .ok results
  | none => .ok results

/-! ## The items dict and the three response_model routes
(src/main.py lines 98-128) -/

/-- A record of the static `items` dict (src/main.py lines 98-107): each
stored dict has a name and price, and optionally a description and tax. -/
structure StoredItem where
  name : String
  description : Option String
  price : ℚ
  tax : Option ℚ
  deriving DecidableEq, Repr

/-- The static `items` dict (src/main.py lines 98-107); `none` for a key not
present. -/
def items (item_id : String) : Option StoredItem :=
  if item_id = "foo" then
    some { name := "Foo", description := none, price := 50.2, tax := none }
  else if item_id = "bar" then
    some { name := "Bar", description := some "The Bar fighters",
           price := 62, tax := some 20.2 }
  else if item_id = "baz" then
    some { name := "Baz", description := some "There goes my baz",
           price := 50.2, tax := some 10.5 }
  else none

/-- Handler `read_item_with_exclude_unset` (src/main.py lines 112-113):
`return items[item_id]` — an unguarded dict lookup that raises KeyError for a
missing key; with response_model_exclude_unset=True the response carries
exactly the stored fields. -/
def read_item_with_exclude_unset (item_id : String) :
    Except PyError StoredItem :=
  match items item_id with
  | some v => .ok v
  | none => .error .keyError

/-- Handler `read_item_name_with_include` (src/main.py lines 121-122): the
same unguarded `items[item_id]` lookup; response_model_include restricts the
response to the name and description fields. -/
def read_item_name_with_include (item_id : String) :
    Except PyError (String × Option String) :=
  match items item_id with
  | some v => .ok (v.name, v.description)
  | none => .error .keyError

/-- Handler `read_item_public_data_with_exclude` (src/main.py lines 127-128):
the same unguarded `items[item_id]` lookup; response_model_exclude=["tax"]
drops the tax field from the `Item`-shaped response, leaving name,
description, price, tagL, tagS and image (the latter three at their
defaults for these stored dicts). -/
def read_item_public_data_with_exclude (item_id : String) :
    Except PyError (String × Option String × ℚ × List String × Finset String × Option Image) :=
  match items item_id with
  | some v => .ok (v.name, v.description, v.price, [], ∅, none)
  | none => .error .keyError

/-! ## PUT /read_item_with_extra_dtype/{item_id}
(src/main.py lines 133-151) -/

/-- The response dict of `read_items_with_extra_dtype`; datetimes and
timedeltas are embedded as integers, the UUID `item_id` as a string. -/
structure ExtraDtypeResult where
  item_id : String
  start_datetime : Int
  end_datetime : Int
  repeat_at : Option Int
  process_after : Int
  start_process : Int
  duration : Int
  deriving DecidableEq, Repr

/-- Handler `read_items_with_extra_dtype` (src/main.py lines 134-151): the
body fields are Optional with default None, yet the body unconditionally
computes `start_process = start_datetime + process_after` and
`duration = end_datetime - start_process`; arithmetic on a missing (None)
operand raises TypeError. -/
def read_items_with_extra_dtype (item_id : String)
    (start_datetime end_datetime : Option Int) (repeat_at : Option Int)
    (process_after : Option Int) : Except PyError ExtraDtypeResult :=
  match start_datetime, process_after with
  | some sd, some pa =>
      let start_process := sd + pa
      match end_datetime with
      | some ed =>
          .ok { item_id := item_id, start_datetime := sd, end_datetime := ed,
                repeat_at := repeat_at, process_after := pa,
                start_process := start_process,
                duration := ed - start_process }
      | none => .error .typeError
  | _, _ => .error .typeError

/-! ## Theorems -/

/-- C1 (counterexample): the path value "resnet" differs from "alexnet" and
"lenet", yet `GET /models/resnet` is not rejected with a validation error —
"resnet" belongs to the closed enum — and the handler returns the generic
'Have some residuals' message, refuting the claim that this message is never
returned. -/
theorem get_model_resnet_counterexample :
    "resnet" ≠ "alexnet" ∧ "resnet" ≠ "lenet" ∧
    route_models "resnet" = some ("resnet", "Have some residuals") := by
  refine ⟨by decide, by decide, ?_⟩
  rfl

/-- C1 (amended): `GET /models/{model_name}` returns the 'Deep Learning FTW!'
message for "alexnet" and the 'LeCNN all the images' message for "lenet"; the
enum member "resnet" is accepted and yields the generic 'Have some residuals'
message; only values outside the closed set {alexnet, resnet, lenet} are
rejected with a client validation error before handler logic runs. -/
theorem route_models_spec (seg : String) :
    route_models seg =
      if seg = "alexnet" then some (seg, "Deep Learning FTW!")
      else if seg = "resnet" then some (seg, "Have some residuals")
      else if seg = "lenet" then some (seg, "LeCNN all the images")
      else none := by
  unfold route_models ModelEnum.ofString
  split_ifs <;> simp_all [get_model, ModelEnum.value]

/-- C2: `GET /items/` returns the Python slice
`fake_item_db[skip : skip + limit]` of the fixed three-element list, with
query defaults skip=0 and limit=10; in particular skip=1, limit=1 returns
exactly the second element and the defaults return the whole list. -/
theorem read_item_returns_slice :
    (∀ skip limit : Int,
      read_item skip limit = pySlice fake_item_db skip (skip + limit)) ∧
    route_items (some 1) (some 1) = [("item_name", "Item_02")] ∧
    route_items none none = fake_item_db := by
  refine ⟨fun _ _ => rfl, by decide, by decide⟩

/-- C3: for every valid `Item` body, the `POST /items/` response carries all
validated fields of the item, plus the extra 'price with tax' field equal to
price + tax exactly when tax is nonzero (absent when tax is 0), with tax
defaulting to 10.5 when the body omits it. -/
theorem create_item_price_with_tax (body : ItemInput) (it : Item)
    (h : validate_item body = .ok it) :
    route_create_item body = .ok (create_item it) ∧
    (create_item it).1 = it ∧
    ((create_item it).2 =
      if it.tax = 0 then none else some (it.price + it.tax)) ∧
    (body.tax = none → it.tax = 10.5) := by
  refine ⟨?_, rfl, ?_, ?_⟩
  · unfold route_create_item
    rw [h]
    rfl
  · unfold create_item
    by_cases h0 : it.tax = 0 <;> simp [h0]
  · intro htax
    unfold validate_item at h
    rcases hn : body.name with _ | n
    · rw [hn] at h
      rcases hp : body.price with _ | p <;> rw [hp] at h <;> simp at h
    · rw [hn] at h
      rcases hp : body.price with _ | p
      · rw [hp] at h
        simp at h
      · rw [hp, htax] at h
        rcases hi : body.image with _ | im
        · rw [hi] at h
          simp at h
          rw [← h]
        · rw [hi] at h
          simp only at h
          rcases hv : validate_image im with e | img
          · rw [hv] at h
            simp at h
          · rw [hv] at h
            simp at h
            rw [← h]

/-- C3 witness: a concrete valid body omitting tax validates to an item with
tax 10.5, and the response carries 'price with tax' = 5 + 10.5. -/
theorem create_item_price_with_tax_witness :
    validate_item
        { name := some "Foo", description := none, price := some 5,
          tax := none, tagL := none, tagS := none, image := none } =
      .ok { name := "Foo", description := none, price := 5, tax := 10.5,
            tagL := [], tagS := ∅, image := none } ∧
    (create_item { name := "Foo", description := none, price := 5,
                   tax := 10.5, tagL := [], tagS := ∅, image := none }).2 =
      some (15.5 : ℚ) := by
  have h := create_item_price_with_tax
    { name := some "Foo", description := none, price := some 5,
      tax := none, tagL := none, tagS := none, image := none }
    { name := "Foo", description := none, price := 5, tax := 10.5,
      tagL := [], tagS := ∅, image := none } rfl
  refine ⟨rfl, ?_⟩
  rw [h.2.2.1]
  norm_num

/-- C4: for every `Item` body, omitting an optional field yields its declared
default in the validated result (description None, tax 10.5, tagL [], tagS
empty, image None), while omitting the required name or price field yields a
validation error naming that field, before any handler body executes. -/
theorem item_defaults_and_required (body : ItemInput) :
    (∀ n p, body.name = some n → body.price = some p → body.image = none →
      validate_item body =
        .ok { name := n, description := body.description, price := p,
              tax := body.tax.getD 10.5, tagL := body.tagL.getD [],
              tagS := body.tagS.getD ∅, image := none }) ∧
    (body.name = none →
      ∃ errs, validate_item body = .error errs ∧ "name" ∈ errs) ∧
    (body.price = none →
      ∃ errs, validate_item body = .error errs ∧ "price" ∈ errs) := by
  refine ⟨?_, ?_, ?_⟩
  · intro n p hn hp hi
    unfold validate_item
    rw [hn, hp, hi]
  · intro hn
    unfold validate_item
    rw [hn]
    rcases hp : body.price with _ | p <;> simp [hn, hp]
  · intro hp
    unfold validate_item
    rw [hp]
    rcases hn : body.name with _ | n <;> simp [hn, hp]

/-- C4 witness: a concrete body with only name and price present validates to
the declared defaults; dropping name (resp. price) produces a validation
error naming "name" (resp. "price"). -/
theorem item_defaults_and_required_witness :
    validate_item
        { name := some "Foo", description := none, price := some 5,
          tax := none, tagL := none, tagS := none, image := none } =
      .ok { name := "Foo", description := none, price := 5, tax := 10.5,
            tagL := [], tagS := ∅, image := none } ∧
    (∃ errs, validate_item
        { name := none, description := none, price := some 5, tax := none,
          tagL := none, tagS := none, image := none } = .error errs ∧
      "name" ∈ errs) ∧
    (∃ errs, validate_item
        { name := some "Foo", description := none, price := none, tax := none,
          tagL := none, tagS := none, image := none } = .error errs ∧
      "price" ∈ errs) := by
  refine ⟨?_, ?_, ?_⟩
  · exact (item_defaults_and_required
      { name := some "Foo", description := none, price := some 5,
        tax := none, tagL := none, tagS := none, image := none }).1
      "Foo" 5 rfl rfl rfl
  · exact (item_defaults_and_required
      { name := none, description := none, price := some 5, tax := none,
        tagL := none, tagS := none, image := none }).2.1 rfl
  · exact (item_defaults_and_required
      { name := some "Foo", description := none, price := none, tax := none,
        tagL := none, tagS := none, image := none }).2.2 rfl

/-- C5: `GET /users/me` always returns the fixed literal
`{'user_id': 'Me!'}` because the literal route is declared before the
parameterized one, and for every other user_id, `GET /users/{user_id}`
returns `{'user_id': user_id}`. -/
theorem users_literal_route_precedence :
    route_users "me" = ("user_id", "Me!") ∧
    ∀ user_id : String, user_id ≠ "me" →
      route_users user_id = ("user_id", user_id) := by
  constructor
  · rfl
  · intro u hu
    simp [route_users, read_user, hu]

/-- C5 witness: the literal route fires for "me" and the parameterized route
echoes the concrete user_id "alice". -/
theorem users_literal_route_precedence_witness :
    route_users "me" = ("user_id", "Me!") ∧
    route_users "alice" = ("user_id", "alice") :=
  ⟨users_literal_route_precedence.1,
   users_literal_route_precedence.2 "alice" (by decide)⟩

/-- C6: for `GET /read_item_opt/{item_id}`, the raw boolean query values
"true", "1" and "on" coerce to true and "false", "0" and "off" coerce to
false; the accepted literal set is exactly true, false, 1, 0, yes, no, on,
off, matched case-insensitively, and equal coerced values give the same
route response. -/
theorem read_item_opt_bool_coercion :
    (∀ s : String, parseBool s ≠ none ↔
      toLowerAscii s ∈
        ["true", "1", "yes", "on", "false", "0", "no", "off"]) ∧
    (parseBool "true" = some true ∧ parseBool "1" = some true ∧
      parseBool "on" = some true ∧ parseBool "yes" = some true ∧
      parseBool "false" = some false ∧ parseBool "0" = some false ∧
      parseBool "off" = some false ∧ parseBool "no" = some false ∧
      parseBool "TRUE" = some true ∧ parseBool "On" = some true ∧
      parseBool "YeS" = some true ∧ parseBool "oFF" = some false ∧
      parseBool "No" = some false ∧ parseBool "FALSE" = some false ∧
      parseBool "2" = none ∧ parseBool "maybe" = none ∧
      route_read_item_opt "id1" none (some "1") =
        route_read_item_opt "id1" none (some "true")) := by
  constructor
  · intro s
    unfold parseBool
    split_ifs <;> (simp_all; try tauto)
  · decide

/-- C7: validation of the `Item` schema is idempotent — re-validating the
serialized form of an already-validated item yields exactly the same item. -/
theorem item_validation_idempotent (body : ItemInput) (it : Item)
    (h : validate_item body = .ok it) :
    validate_item it.toInput = .ok it := by
  unfold validate_item at h ⊢
  rcases hn : body.name with _ | n
  · rw [hn] at h
    rcases hp : body.price with _ | p <;> rw [hp] at h <;> simp at h
  · rw [hn] at h
    rcases hp : body.price with _ | p
    · rw [hp] at h
      simp at h
    · rw [hp] at h
      rcases hi : body.image with _ | im
      · rw [hi] at h
        simp at h
        rw [← h]
        rfl
      · rw [hi] at h
        simp only at h
        rcases hv : validate_image im with e | img
        · rw [hv] at h
          simp at h
        · rw [hv] at h
          simp at h
          have hurl : isHttpUrl img.url = true := by
            unfold validate_image at hv
            rcases hu : im.url with _ | u
            · rw [hu] at hv
              rcases hm : im.name with _ | m <;> rw [hm] at hv <;> simp at hv
            · rw [hu] at hv
              rcases hm : im.name with _ | m
              · rw [hm] at hv
                simp at hv
              · rw [hm] at hv
                by_cases hb : isHttpUrl u
                · simp [hb] at hv
                  rw [← hv]
                  exact hb
                · simp [hb] at hv
          rw [← h]
          simp [Item.toInput, validate_image, hurl]

/-- C7 witness: re-validating the serialization of a concrete validated item
(with a nested image) returns the item unchanged. -/
theorem item_validation_idempotent_witness :
    validate_item
      (Item.toInput
        { name := "Foo", description := some "d", price := 5, tax := 10.5,
          tagL := ["a"], tagS := ∅,
          image := some { url := "https://example.org", name := "img" } }) =
    .ok { name := "Foo", description := some "d", price := 5, tax := 10.5,
          tagL := ["a"], tagS := ∅,
          image := some { url := "https://example.org", name := "img" } } := by
  refine item_validation_idempotent
    { name := some "Foo", description := some "d", price := some 5,
      tax := some 10.5, tagL := some ["a"], tagS := some ∅,
      image := some { url := some "https://example.org", name := some "img" } }
    _ ?_
  rfl

/-- C8: for `GET /read_items_with_valid`, whenever the query parameter q is
supplied and satisfies its declared constraints (length in [3, 50] and
matching ^fixedquery$), the handler body raises AttributeError by calling
`update` on a list, never producing the item-list response; the item list is
returned only when q is omitted. -/
theorem read_items_with_valid_raises (q : String) (h : q_constraints q) :
    read_items_with_valid (some q) = .error .attributeError ∧
    read_items_with_valid none =
      .ok [("item_id", "Item01"), ("item_id", "Item02")] := by
  obtain ⟨h1, h2, h3⟩ := h
  subst h3
  exact ⟨rfl, rfl⟩

/-- C8 witness: the only string satisfying the constraints, "fixedquery",
makes the handler raise; omitting q returns the list. -/
theorem read_items_with_valid_raises_witness :
    q_constraints "fixedquery" ∧
    read_items_with_valid (some "fixedquery") = .error .attributeError :=
  ⟨by decide, (read_items_with_valid_raises "fixedquery" (by decide)).1⟩

/-- C9: for every item_id outside foo, bar, baz, all three response_model
routes raise KeyError from the unguarded `items[item_id]` lookup — a server
error, not a not-found client error. -/
theorem unknown_item_id_raises_keyerror (item_id : String)
    (h : item_id ≠ "foo" ∧ item_id ≠ "bar" ∧ item_id ≠ "baz") :
    read_item_with_exclude_unset item_id = .error .keyError ∧
    read_item_name_with_include item_id = .error .keyError ∧
    read_item_public_data_with_exclude item_id = .error .keyError := by
  obtain ⟨h1, h2, h3⟩ := h
  have hi : items item_id = none := by
    simp [items, h1, h2, h3]
  refine ⟨?_, ?_, ?_⟩ <;>
    simp [read_item_with_exclude_unset, read_item_name_with_include,
          read_item_public_data_with_exclude, hi]

/-- C9 witness: the concrete key "qux" is outside the dict and all three
handlers raise KeyError on it. -/
theorem unknown_item_id_raises_keyerror_witness :
    read_item_with_exclude_unset "qux" = .error .keyError ∧
    read_item_name_with_include "qux" = .error .keyError ∧
    read_item_public_data_with_exclude "qux" = .error .keyError :=
  unknown_item_id_raises_keyerror "qux" (by decide)

/-- C10: for `PUT /read_item_with_extra_dtype/{item_id}`, omitting any of
start_datetime, end_datetime or process_after — each optional with default
None — makes the handler raise TypeError from arithmetic on None, and a
successful response requires all three to be present (repeat_at may still be
omitted). -/
theorem extra_dtype_requires_all_three (item_id : String)
    (sd ed ra pa : Option Int) :
    (sd = none ∨ ed = none ∨ pa = none →
      read_items_with_extra_dtype item_id sd ed ra pa = .error .typeError) ∧
    (∀ s e p, sd = some s → ed = some e → pa = some p →
      read_items_with_extra_dtype item_id sd ed ra pa =
        .ok { item_id := item_id, start_datetime := s, end_datetime := e,
              repeat_at := ra, process_after := p, start_process := s + p,
              duration := e - (s + p) }) := by
  constructor
  · intro h
    unfold read_items_with_extra_dtype
    rcases sd with _ | s <;> rcases pa with _ | p <;>
      rcases ed with _ | e <;> simp_all
  · intro s e p hs he hp
    subst hs
    subst he
    subst hp
    rfl

/-- C10 witness: omitting start_datetime raises TypeError; supplying all
three yields the computed start_process and duration. -/
theorem extra_dtype_requires_all_three_witness :
    read_items_with_extra_dtype "u1" none (some 5) none (some 2) =
      .error .typeError ∧
    read_items_with_extra_dtype "u1" (some 1) (some 5) none (some 2) =
      .ok { item_id := "u1", start_datetime := 1, end_datetime := 5,
            repeat_at := none, process_after := 2, start_process := 1 + 2,
            duration := 5 - (1 + 2) } :=
  ⟨(extra_dtype_requires_all_three "u1" none (some 5) none (some 2)).1
      (Or.inl rfl),
   (extra_dtype_requires_all_three "u1" (some 1) (some 5) none (some 2)).2
      1 5 2 rfl rfl rfl⟩

end FastApiTutorial
